import Mathlib

/-!
Verification development for the Shopify MCP HTTP server
(`src/server-http.ts`).

The file shallowly embeds the dispatch and schema-validation layer of the
server:

* `JsVal` models JavaScript runtime values (including `undefined`), together
  with the JavaScript coercions the source relies on (truthiness, `typeof x
  === "object"`, the `??` operator, property access with optional chaining,
  string coercion of property keys, and `JSON.stringify`).
* The nine `registerTool` handlers of the generic HTTP front end are embedded
  one by one (`handleGetProducts`, ...), together with the registry
  `toolHandlers` and the `POST /mcp` route body `mcpPost`.  Tool executors
  (`getProducts.execute`, ...) are external collaborators and are passed in as
  an abstract environment `ExecEnv`; a thrown executor error is modelled as
  `Except.error`.  The registry is a plain object literal, so the access
  `toolHandlers[name]` falls through to `Object.prototype` (`lookupHandler`,
  `protoInvoke`): inherited names like `toString` pass the truthiness guard.
  `mcpPost` additionally returns the tool-handler invocation it performed
  (if any), so that theorems can speak about which tool handler ran and with
  which argument object.
* The zod argument schemas attached to the structured-protocol front end
  (`mcpServer.tool(...)` calls) are embedded as `ZSchema` values
  (`getProductsSchema`, ...), and the relevant behaviour of the zod library
  (parsing with defaults, optional fields, stripping of undeclared keys) as
  `zparse`.

Recursive functions over `JsVal`/`ZSchema` take a fuel argument so that they
are structurally recursive and reduce by `rfl`; the fuel is always
instantiated large enough that the out-of-fuel branch is unreachable (it only
shrinks along the nesting structure of the value or schema).
-/

/-- A JavaScript runtime value, as far as the dispatch layer observes it.
Numbers are modelled as integers: every numeric literal in the source and in
the claims is an integer, and no arithmetic is performed on them. -/
inductive JsVal : Type where
  | undef : JsVal
  | null : JsVal
  | bool (b : Bool) : JsVal
  | num (n : Int) : JsVal
  | str (s : String) : JsVal
  | arr (elems : List JsVal) : JsVal
  | obj (fields : List (String × JsVal)) : JsVal

/-- JavaScript truthiness: `undefined`, `null`, `false`, `0` and `""` are
falsy; every array and object is truthy. -/
def JsVal.truthy : JsVal → Bool
  | JsVal.undef => false
  | .null => false
  | .bool b => b
  | .num n => n != 0
  | .str s => s != ""
  | .arr _ => true
  | .obj _ => true

/-- JavaScript `typeof v === "object"`: true for `null`, arrays and plain
objects. -/
def JsVal.typeofObject : JsVal → Bool
  | .null => true
  | .arr _ => true
  | .obj _ => true
  | _ => false

/-- Whether a value is exactly `undefined`. -/
def JsVal.isUndef : JsVal → Bool
  | JsVal.undef => true
  | _ => false

/-- First-match lookup in an association list with string keys (JavaScript
object property access; property keys in an object literal are unique). -/
def lookupKey {β : Type} : List (String × β) → String → Option β
  | [], _ => none
  | (k, v) :: rest, key => if k == key then some v else lookupKey rest key

/-- Optional-chaining property access `v?.key`: `undefined` when `v` is not
an object or lacks the key. -/
def optGet (v : JsVal) (key : String) : JsVal :=
  match v with
  | .obj fields => (lookupKey fields key).getD JsVal.undef
  | _ => JsVal.undef

/-- The nullish-coalescing operator `v ?? d`: replaces `undefined` and `null`
by the default, keeps every other value. -/
def nullishDefault (v d : JsVal) : JsVal :=
  match v with
  | JsVal.undef => d
  | .null => d
  | _ => v

/-- Strict equality of a value against a string literal (`v === "s"`). -/
def strictEqStr (v : JsVal) (s : String) : Bool :=
  match v with
  | .str t => t == s
  | _ => false

/-- Fuelled JavaScript string coercion (`String(v)`), as used for object
property keys and template literals.  The fuel only decreases along array
nesting (every non-array case is exact at any positive fuel), so the fixed
fuel `64` is exact for every value occurring in this development. -/
def jsToStringF : Nat → JsVal → String
  | 0, _ => ""
  | Nat.succ n, v =>
    match v with
    | JsVal.undef => "undefined"
    | .null => "null"
    | .bool b => cond b "true" "false"
    | .num m => toString m
    | .str s => s
    | .arr xs => String.intercalate ","
        (xs.map (fun x =>
          match x with
          | .null => ""
          | JsVal.undef => ""
          | y => jsToStringF n y))
    | .obj _ => "[object Object]"

/-- JavaScript string coercion `String(v)`. -/
def jsToString (v : JsVal) : String := jsToStringF 64 v

/-- Escape one character for a JSON string literal. -/
def jsonEscapeChar (c : Char) : String :=
  if c = '"' then "\\\""
  else if c = '\\' then "\\\\"
  else if c = '\n' then "\\n"
  else String.singleton c

/-- Quote a string as a JSON string literal. -/
def jsonQuote (s : String) : String :=
  "\"" ++ String.join (s.toList.map jsonEscapeChar) ++ "\""

/-- Fuelled `JSON.stringify`: `none` models the `undefined` result (the input
itself is `undefined`); `undefined` entries of objects are dropped and
`undefined` array elements serialize as `null`.  The fuel only decreases
along array/object nesting, so the fixed fuel `64` is exact for every value
occurring in this development. -/
def jsonStringifyF : Nat → JsVal → Option String
  | 0, _ => none
  | Nat.succ n, v =>
    match v with
    | JsVal.undef => none
    | .null => some "null"
    | .bool b => some (cond b "true" "false")
    | .num m => some (toString m)
    | .str s => some (jsonQuote s)
    | .arr xs => some ("[" ++ String.intercalate ","
        (xs.map (fun x => (jsonStringifyF n x).getD "null")) ++ "]")
    | .obj fs => some ("\x7b" ++ String.intercalate ","
        (fs.filterMap (fun p =>
          (jsonStringifyF n p.2).map (fun sv => jsonQuote p.1 ++ ":" ++ sv)))
        ++ "\x7d")

/-- `JSON.stringify(v)`. -/
def jsonStringify (v : JsVal) : Option String := jsonStringifyF 64 v

/-- A thrown JavaScript error, as observed by the dispatch layer: its
`.message` and `.stack` properties (an absent or empty message is modelled as
`""`, which is what the `error.message || ...` fallback in the source tests
for). -/
structure JsError : Type where
  message : String
  stack : String

/-- The environment of tool executors (`getProducts.execute`, ...), indexed
by the imported tool unit's name.  Executors are external collaborators: an
arbitrary environment is an arbitrary assignment of results or thrown
errors. -/
def ExecEnv : Type := String → JsVal → Except JsError JsVal

/-- Wrap an executor result as the handlers do:
`{ content: [{ type: "text", text: JSON.stringify(result) }] }`. -/
def wrapContent (result : JsVal) : JsVal :=
  .obj [("content", .arr [.obj [("type", .str "text"),
    ("text", (match jsonStringify result with
              | some s => JsVal.str s
              | none => JsVal.undef))]])]

/-- Argument processing of the `get-products` HTTP handler:
`{ searchTitle: args?.searchTitle, limit: args?.limit ?? 10 }`. -/
def getProductsProcessedArgs (args : JsVal) : JsVal :=
  .obj [("searchTitle", optGet args "searchTitle"),
        ("limit", nullishDefault (optGet args "limit") (.num 10))]

/-- Argument processing of the `get-customers` HTTP handler:
`{ searchQuery: args?.searchQuery, limit: args?.limit ?? 10 }`. -/
def getCustomersProcessedArgs (args : JsVal) : JsVal :=
  .obj [("searchQuery", optGet args "searchQuery"),
        ("limit", nullishDefault (optGet args "limit") (.num 10))]

/-- Argument processing of the `get-orders` HTTP handler:
`{ status: args?.status ?? "any", limit: args?.limit ?? 10 }`. -/
def getOrdersProcessedArgs (args : JsVal) : JsVal :=
  .obj [("status", nullishDefault (optGet args "status") (.str "any")),
        ("limit", nullishDefault (optGet args "limit") (.num 10))]

/-- Argument processing of the `get-customer-orders` HTTP handler:
`{ customerId: args?.customerId, limit: args?.limit ?? 10 }`. -/
def getCustomerOrdersProcessedArgs (args : JsVal) : JsVal :=
  .obj [("customerId", optGet args "customerId"),
        ("limit", nullishDefault (optGet args "limit") (.num 10))]

/-- HTTP handler registered for `get-products`. -/
def handleGetProducts (exec : ExecEnv) (args : JsVal) : Except JsError JsVal :=
  Except.map wrapContent (exec "getProducts" (getProductsProcessedArgs args))

/-- HTTP handler registered for `get-product-by-id` (pass-through). -/
def handleGetProductById (exec : ExecEnv) (args : JsVal) : Except JsError JsVal :=
  Except.map wrapContent (exec "getProductById" args)

/-- HTTP handler registered for `get-customers`. -/
def handleGetCustomers (exec : ExecEnv) (args : JsVal) : Except JsError JsVal :=
  Except.map wrapContent (exec "getCustomers" (getCustomersProcessedArgs args))

/-- HTTP handler registered for `get-orders`. -/
def handleGetOrders (exec : ExecEnv) (args : JsVal) : Except JsError JsVal :=
  Except.map wrapContent (exec "getOrders" (getOrdersProcessedArgs args))

/-- HTTP handler registered for `get-order-by-id` (pass-through). -/
def handleGetOrderById (exec : ExecEnv) (args : JsVal) : Except JsError JsVal :=
  Except.map wrapContent (exec "getOrderById" args)

/-- HTTP handler registered for `update-order` (pass-through). -/
def handleUpdateOrder (exec : ExecEnv) (args : JsVal) : Except JsError JsVal :=
  Except.map wrapContent (exec "updateOrder" args)

/-- HTTP handler registered for `get-customer-orders`. -/
def handleGetCustomerOrders (exec : ExecEnv) (args : JsVal) : Except JsError JsVal :=
  Except.map wrapContent (exec "getCustomerOrders" (getCustomerOrdersProcessedArgs args))

/-- HTTP handler registered for `update-customer` (pass-through). -/
def handleUpdateCustomer (exec : ExecEnv) (args : JsVal) : Except JsError JsVal :=
  Except.map wrapContent (exec "updateCustomer" args)

/-- HTTP handler registered for `create-product` (pass-through). -/
def handleCreateProduct (exec : ExecEnv) (args : JsVal) : Except JsError JsVal :=
  Except.map wrapContent (exec "createProduct" args)

/-- The tool registry `toolHandlers`, in registration order (the successive
`registerTool` calls of the source). -/
def toolHandlers : List (String × (ExecEnv → JsVal → Except JsError JsVal)) :=
  [("get-products", handleGetProducts),
   ("get-product-by-id", handleGetProductById),
   ("get-customers", handleGetCustomers),
   ("get-orders", handleGetOrders),
   ("get-order-by-id", handleGetOrderById),
   ("update-order", handleUpdateOrder),
   ("get-customer-orders", handleGetCustomerOrders),
   ("update-customer", handleUpdateCustomer),
   ("create-product", handleCreateProduct)]

/-- An HTTP response: a status code and a JSON body (the value passed to
`res.json`). -/
structure HttpResponse : Type where
  status : Nat
  body : JsVal

/-- The coercion of `params.arguments` before handler invocation:
`args && typeof args === "object" ? args : \x7b\x7d`. -/
def coerceToolArgs (args : JsVal) : JsVal :=
  if args.truthy && args.typeofObject then args else .obj []

/-- The `tools/list` response body. -/
def toolListBody : JsVal :=
  .obj [("tools", .arr (toolHandlers.map (fun p =>
    .obj [("name", .str p.1),
          ("description", .str ("Shopify " ++ p.1 ++ " tool"))])))]

/-- The V8 message for destructuring `\x7b method, params \x7d` out of a
nullish `req.body` (caught by the outer `catch`, which responds with the
error message). -/
def destructureMessage (v : JsVal) : String :=
  "Cannot destructure property \x27method\x27 of \x27req.body\x27 as it is "
    ++ jsToString v ++ "."

/-- What the property access `toolHandlers[name]` yields: either an own
property (a registered tool handler) or, via the prototype chain of the
plain object literal `toolHandlers`, an inherited `Object.prototype`
member — every inherited member is truthy, so it passes the
`if (!toolHandlers[name])` guard. -/
inductive HandlerProp : Type where
  | registered (h : ExecEnv → JsVal → Except JsError JsVal) : HandlerProp
  | inherited (key : String) : HandlerProp

/-- The property names `toolHandlers[name]` resolves on `Object.prototype`
when `name` is not a registered tool: the eleven standard methods and the
`__proto__` accessor. -/
def objectPrototypeKeys : List String :=
  ["constructor", "hasOwnProperty", "isPrototypeOf", "propertyIsEnumerable",
   "toLocaleString", "toString", "valueOf",
   "__defineGetter__", "__defineSetter__", "__lookupGetter__", "__lookupSetter__",
   "__proto__"]

/-- The registry access `toolHandlers[name]`: own properties (the registered
handlers) shadow the prototype; otherwise the lookup falls through to
`Object.prototype`, and only a name found on neither is absent (falsy,
triggering the 404 branch). -/
def lookupHandler (name : String) : Option HandlerProp :=
  match lookupKey toolHandlers name with
  | some h => some (.registered h)
  | none =>
    if objectPrototypeKeys.contains name then some (.inherited name)
    else none

/-- The result of the call `toolHandlers[name](toolArgs)` when `name`
resolved to an inherited `Object.prototype` member (with `this` bound to the
registry object).  Modelled far enough to determine every response: exact
for `toString`/`toLocaleString` (`"[object Object]"`), `constructor`
(`Object(x)` returns an object argument unchanged), the predicate methods
(they coerce the argument to a property key with `String(...)`), the define
accessors (they throw, the second argument being `undefined`) and
`__proto__` (the inherited value is `Object.prototype` itself, which is not
callable, so the call throws).  `valueOf` returns the registry object
itself, stood for by its JSON-serialization image (every field is a
function, so all serialize away); the lookup accessors return `undefined`
(exact except when the coerced key itself names a prototype accessor);
thrown stack text is environment-dependent and modelled as the V8 first
line. -/
def protoInvoke (key : String) (arg : JsVal) : Except JsError JsVal :=
  if key == "toString" || key == "toLocaleString" then .ok (.str "[object Object]")
  else if key == "valueOf" then .ok (.obj [])
  else if key == "constructor" then .ok arg
  else if key == "hasOwnProperty" || key == "propertyIsEnumerable" then
    .ok (.bool ((toolHandlers.map Prod.fst).contains (jsToString arg)))
  else if key == "isPrototypeOf" then .ok (.bool false)
  else if key == "__lookupGetter__" || key == "__lookupSetter__" then .ok JsVal.undef
  else if key == "__defineGetter__" then
    .error ⟨"Getter must be a function: undefined",
            "TypeError: Getter must be a function: undefined"⟩
  else if key == "__defineSetter__" then
    .error ⟨"Setter must be a function: undefined",
            "TypeError: Setter must be a function: undefined"⟩
  else
    .error ⟨"toolHandlers[name] is not a function",
            "TypeError: toolHandlers[name] is not a function"⟩

/-- The `POST /mcp` route body.  Returns the HTTP response together with the
tool-handler invocation performed (tool name and coerced argument object),
if any; `none` means no registered tool handler (hence no tool executor)
ran — in particular an invocation of an inherited `Object.prototype` member
runs no executor.  All throw sites inside the route are modelled:
destructuring a nullish body throws into the outer `catch`, and a thrown
handler error or a throwing/non-callable inherited member lands in the
inner `catch`. -/
def mcpPost (exec : ExecEnv) (reqBody : JsVal) : HttpResponse × Option (String × JsVal) :=
  match reqBody with
  | JsVal.undef => (⟨500, .obj [("error", .str (destructureMessage JsVal.undef))]⟩, none)
  | .null => (⟨500, .obj [("error", .str (destructureMessage .null))]⟩, none)
  | body =>
    let method := optGet body "method"
    let params := optGet body "params"
    if strictEqStr method "tools/list" then
      (⟨200, toolListBody⟩, none)
    else if strictEqStr method "tools/call" then
      let paramsObj := if params.truthy then params else .obj []
      let nameVal := optGet paramsObj "name"
      let argsVal := optGet paramsObj "arguments"
      if !nameVal.truthy then
        (⟨400, .obj [("error", .str "Tool name is required")]⟩, none)
      else
        let nameStr := jsToString nameVal
        match lookupHandler nameStr with
        | none =>
          (⟨404, .obj [("error", .str ("Tool \x27" ++ nameStr ++ "\x27 not found"))]⟩, none)
        | some (.registered handler) =>
          let toolArgs := coerceToolArgs argsVal
          match handler exec toolArgs with
          | .ok result => (⟨200, result⟩, some (nameStr, toolArgs))
          | .error e =>
            (⟨500, .obj [("error", .str (if e.message == "" then "Tool execution failed" else e.message)),
                         ("details", .str e.stack)]⟩, some (nameStr, toolArgs))
        | some (.inherited key) =>
          let toolArgs := coerceToolArgs argsVal
          match protoInvoke key toolArgs with
          | .ok result => (⟨200, result⟩, none)
          | .error e =>
            (⟨500, .obj [("error", .str (if e.message == "" then "Tool execution failed" else e.message)),
                         ("details", .str e.stack)]⟩, none)
    else
      (⟨400, .obj [("error", .str "Unknown method")]⟩, none)

/-- A request body for `tools/call` with the given name value and arguments
value. -/
def callBody (name : JsVal) (args : JsVal) : JsVal :=
  .obj [("method", .str "tools/call"),
        ("params", .obj [("name", name), ("arguments", args)])]

/-- A zod argument schema, covering exactly the combinators used by the
`mcpServer.tool(...)` registrations: `z.string()`, `z.string().min(n)`,
`z.string().regex(/^\d+$/, msg)`, `z.string().email()`, `z.number()`,
`z.boolean()`, `z.enum([...])`, `z.array(s)`, `z.object(...)`,
`.optional()` and `.default(d)`. -/
inductive ZSchema : Type where
  | zstring : ZSchema
  | zstringMin (n : Nat) : ZSchema
  | znumericStr (msg : String) : ZSchema
  | zemail : ZSchema
  | znumber : ZSchema
  | zboolean : ZSchema
  | zenum (options : List String) : ZSchema
  | zarray (elem : ZSchema) : ZSchema
  | zobject (fields : List (String × ZSchema)) : ZSchema
  | zoptional (s : ZSchema) : ZSchema
  | zdefault (s : ZSchema) (d : JsVal) : ZSchema

/-- A simplified model of the zod email check: one `@` separating a nonempty
local part from a domain that has at least two nonempty dot-separated
labels.  (No claim in this development depends on the exact email regex.) -/
def validEmail (s : String) : Bool :=
  match s.splitOn "@" with
  | [localPart, domain] =>
    localPart != "" && (domain.splitOn ".").length ≥ 2
      && (domain.splitOn ".").all (fun p => p != "")
  | _ => false

/-- Parse every element of a list with the given element parser
(`z.array(...)`). -/
def zparseListWith (p : JsVal → Except String JsVal) :
    List JsVal → Except String (List JsVal)
  | [] => .ok []
  | x :: xs =>
    match p x with
    | .error msg => .error msg
    | .ok r =>
      match zparseListWith p xs with
      | .error msg => .error msg
      | .ok rs => .ok (r :: rs)

/-- Parse the declared fields of a `z.object(...)` shape against the supplied
fields, with zod semantics: undeclared keys are stripped; a declared key that
is missing from the input is parsed as `undefined` (so defaults fill in and
required fields fail), and is omitted from the output when that parse
produces `undefined` (an omitted optional field). -/
def zparseObjWith (p : ZSchema → JsVal → Except String JsVal) :
    List (String × ZSchema) → List (String × JsVal) →
    Except String (List (String × JsVal))
  | [], _ => .ok []
  | (k, sch) :: rest, fs =>
    match lookupKey fs k with
    | some v =>
      match p sch v with
      | .error msg => .error msg
      | .ok r =>
        match zparseObjWith p rest fs with
        | .error msg => .error msg
        | .ok rs => .ok ((k, r) :: rs)
    | none =>
      match p sch JsVal.undef with
      | .error msg => .error msg
      | .ok r =>
        match zparseObjWith p rest fs with
        | .error msg => .error msg
        | .ok rs => .ok (if r.isUndef then rs else (k, r) :: rs)

/-- Fuelled zod parser.  The fuel decreases only when descending into the
schema (never along the parsed value), so any fuel exceeding the nesting
depth of the schema gives the exact zod behaviour for every value. -/
def zparseF : Nat → ZSchema → JsVal → Except String JsVal
  | 0, _, _ => .error "schema too deep"
  | Nat.succ n, sch, v =>
    match sch with
    | .zstring =>
      match v with
      | .str s => .ok (.str s)
      | _ => .error "Expected string"
    | .zstringMin m =>
      match v with
      | .str s =>
        if m ≤ s.length then .ok (.str s)
        else .error "String too short"
      | _ => .error "Expected string"
    | .znumericStr msg =>
      match v with
      | .str s =>
        if s != "" && s.toList.all Char.isDigit then .ok (.str s)
        else .error msg
      | _ => .error "Expected string"
    | .zemail =>
      match v with
      | .str s => if validEmail s then .ok (.str s) else .error "Invalid email"
      | _ => .error "Expected string"
    | .znumber =>
      match v with
      | .num m => .ok (.num m)
      | _ => .error "Expected number"
    | .zboolean =>
      match v with
      | .bool b => .ok (.bool b)
      | _ => .error "Expected boolean"
    | .zenum options =>
      match v with
      | .str s =>
        if options.contains s then .ok (.str s)
        else .error "Invalid enum value"
      | _ => .error "Invalid enum value"
    | .zarray e =>
      match v with
      | .arr xs =>
        match zparseListWith (zparseF n e) xs with
        | .ok rs => .ok (.arr rs)
        | .error msg => .error msg
      | _ => .error "Expected array"
    | .zobject fields =>
      match v with
      | .obj fs =>
        match zparseObjWith (zparseF n) fields fs with
        | .ok rs => .ok (.obj rs)
        | .error msg => .error msg
      | _ => .error "Expected object"
    | .zoptional s =>
      match v with
      | JsVal.undef => .ok JsVal.undef
      | w => zparseF n s w
    | .zdefault s d =>
      match v with
      | JsVal.undef => zparseF n s d
      | w => zparseF n s w

/-- Zod parse of a value against a schema.  The fixed fuel `20` exceeds the
nesting depth of every schema declared in the source, so the out-of-fuel
branch is unreachable for them. -/
def zparse (sch : ZSchema) (v : JsVal) : Except String JsVal := zparseF 20 sch v

/-- Schema of the metafields array elements shared by `update-order` and
`update-customer`. -/
def metafieldSchema : ZSchema :=
  .zobject [("id", .zoptional .zstring),
            ("namespace", .zoptional .zstring),
            ("key", .zoptional .zstring),
            ("value", .zstring),
            ("type", .zoptional .zstring)]

/-- Declared schema of `mcpServer.tool("get-products", ...)`. -/
def getProductsSchema : ZSchema :=
  .zobject [("searchTitle", .zoptional .zstring),
            ("limit", .zdefault .znumber (.num 10))]

/-- Declared schema of `mcpServer.tool("get-product-by-id", ...)`. -/
def getProductByIdSchema : ZSchema :=
  .zobject [("productId", .zstringMin 1)]

/-- Declared schema of `mcpServer.tool("get-customers", ...)`. -/
def getCustomersSchema : ZSchema :=
  .zobject [("searchQuery", .zoptional .zstring),
            ("limit", .zdefault .znumber (.num 10))]

/-- Declared schema of `mcpServer.tool("get-orders", ...)`. -/
def getOrdersSchema : ZSchema :=
  .zobject [("status", .zdefault (.zenum ["any", "open", "closed", "cancelled"]) (.str "any")),
            ("limit", .zdefault .znumber (.num 10))]

/-- Declared schema of `mcpServer.tool("get-order-by-id", ...)`. -/
def getOrderByIdSchema : ZSchema :=
  .zobject [("orderId", .zstringMin 1)]

/-- Declared schema of `mcpServer.tool("update-order", ...)`. -/
def updateOrderSchema : ZSchema :=
  .zobject [("id", .zstringMin 1),
            ("tags", .zoptional (.zarray .zstring)),
            ("email", .zoptional .zemail),
            ("note", .zoptional .zstring),
            ("customAttributes", .zoptional (.zarray
              (.zobject [("key", .zstring), ("value", .zstring)]))),
            ("metafields", .zoptional (.zarray metafieldSchema)),
            ("shippingAddress", .zoptional
              (.zobject [("address1", .zoptional .zstring),
                         ("address2", .zoptional .zstring),
                         ("city", .zoptional .zstring),
                         ("company", .zoptional .zstring),
                         ("country", .zoptional .zstring),
                         ("firstName", .zoptional .zstring),
                         ("lastName", .zoptional .zstring),
                         ("phone", .zoptional .zstring),
                         ("province", .zoptional .zstring),
                         ("zip", .zoptional .zstring)]))]

/-- Declared schema of `mcpServer.tool("get-customer-orders", ...)`. -/
def getCustomerOrdersSchema : ZSchema :=
  .zobject [("customerId", .znumericStr "Customer ID must be numeric"),
            ("limit", .zdefault .znumber (.num 10))]

/-- Declared schema of `mcpServer.tool("update-customer", ...)`. -/
def updateCustomerSchema : ZSchema :=
  .zobject [("id", .znumericStr "Customer ID must be numeric"),
            ("firstName", .zoptional .zstring),
            ("lastName", .zoptional .zstring),
            ("email", .zoptional .zemail),
            ("phone", .zoptional .zstring),
            ("tags", .zoptional (.zarray .zstring)),
            ("note", .zoptional .zstring),
            ("taxExempt", .zoptional .zboolean),
            ("metafields", .zoptional (.zarray metafieldSchema))]

/-- Declared schema of `mcpServer.tool("create-product", ...)`. -/
def createProductSchema : ZSchema :=
  .zobject [("title", .zstringMin 1),
            ("descriptionHtml", .zoptional .zstring),
            ("vendor", .zoptional .zstring),
            ("productType", .zoptional .zstring),
            ("tags", .zoptional (.zarray .zstring)),
            ("status", .zdefault (.zenum ["ACTIVE", "DRAFT", "ARCHIVED"]) (.str "DRAFT"))]

/-- The structured-protocol front end's declared schemas, in the order of the
`mcpServer.tool(...)` calls. -/
def mcpToolSchemas : List (String × ZSchema) :=
  [("get-products", getProductsSchema),
   ("get-product-by-id", getProductByIdSchema),
   ("get-customers", getCustomersSchema),
   ("get-orders", getOrdersSchema),
   ("get-order-by-id", getOrderByIdSchema),
   ("update-order", updateOrderSchema),
   ("get-customer-orders", getCustomerOrdersSchema),
   ("update-customer", updateCustomerSchema),
   ("create-product", createProductSchema)]

/-- Top-level keys of an object value (empty for non-objects). -/
def objKeys : JsVal → List String
  | .obj fields => fields.map Prod.fst
  | _ => []

/-- Top-level declared argument names of a schema (empty for non-object
schemas). -/
def schemaTopKeys : ZSchema → List String
  | .zobject fields => fields.map Prod.fst
  | _ => []

/-- An executor environment in which every executor succeeds with `null`
(a collaborator stub). -/
def okNullExec : ExecEnv := fun _ _ => .ok .null

/-- An executor environment in which every executor echoes its argument
object back as its result, making the argument object visible in the
response. -/
def echoExec : ExecEnv := fun _ args => .ok args

/-- An executor environment in which every executor throws the given
error. -/
def failExec (e : JsError) : ExecEnv := fun _ _ => .error e

/-- Keys found by a successful lookup are among the list's keys. -/
theorem lookupKey_mem_keys {β : Type} (l : List (String × β)) (key : String) (b : β)
    (h : lookupKey l key = some b) : key ∈ l.map Prod.fst := by
  induction l with
  | nil => simp [lookupKey] at h
  | cons p rest ih =>
    obtain ⟨k, v⟩ := p
    rw [lookupKey] at h
    split at h
    · next heq =>
      simp only [beq_iff_eq] at heq
      simp [heq]
    · simp [ih h]

/-- Every registered tool name is a nonempty string. -/
theorem registered_name_nonempty {name : String}
    {handler : ExecEnv → JsVal → Except JsError JsVal}
    (h : lookupKey toolHandlers name = some handler) : name ≠ "" := by
  have hm := lookupKey_mem_keys _ _ _ h
  simp [toolHandlers] at hm
  rcases hm with rfl | rfl | rfl | rfl | rfl | rfl | rfl | rfl | rfl <;> decide

/-- String coercion is the identity on strings. -/
theorem jsToString_str (s : String) : jsToString (.str s) = s := rfl

/-- Boolean inequality test of a nonempty string against the empty string. -/
theorem bne_true_of_ne {s : String} (h : s ≠ "") : (s != "") = true := bne_iff_ne.mpr h

/-- A successful object parse comes from an object input and produces an
object output whose fields come from `zparseObjWith`. -/
theorem zparse_zobject_ok_shape (fields : List (String × ZSchema)) (v out : JsVal)
    (h : zparse (.zobject fields) v = .ok out) :
    ∃ fs l, v = .obj fs ∧ zparseObjWith (zparseF 19) fields fs = .ok l ∧ out = .obj l := by
  cases v with
  | obj fs =>
    have h2 : (match zparseObjWith (zparseF 19) fields fs with
               | Except.ok rs => Except.ok (JsVal.obj rs)
               | Except.error m => Except.error m) = Except.ok out := h
    cases hz : zparseObjWith (zparseF 19) fields fs with
    | ok l =>
      rw [hz] at h2
      exact ⟨fs, l, rfl, hz, by injection h2 with h3; exact h3.symm⟩
    | error m =>
      rw [hz] at h2
      exact Except.noConfusion h2
  | undef => exact Except.noConfusion h
  | null => exact Except.noConfusion h
  | bool b => exact Except.noConfusion h
  | num n => exact Except.noConfusion h
  | str s => exact Except.noConfusion h
  | arr xs => exact Except.noConfusion h

/-- Zod object parsing only ever outputs declared keys (undeclared input
fields are stripped). -/
theorem zparseObjWith_keys_subset (p : ZSchema → JsVal → Except String JsVal) :
    ∀ (fields : List (String × ZSchema)) (fs out : List (String × JsVal)),
    zparseObjWith p fields fs = .ok out →
    ∀ k, k ∈ out.map Prod.fst → k ∈ fields.map Prod.fst := by
  intro fields
  induction fields with
  | nil =>
    intro fs out h k hk
    rw [zparseObjWith] at h
    injection h with h2
    subst h2
    simp at hk
  | cons q rest ih =>
    obtain ⟨key, sch⟩ := q
    intro fs out h k hk
    rw [zparseObjWith] at h
    split at h
    · split at h
      · exact Except.noConfusion h
      · split at h
        · exact Except.noConfusion h
        · next rs hz =>
          injection h with h2
          subst h2
          have hk2 : k ∈ key :: rs.map Prod.fst := hk
          show k ∈ key :: rest.map Prod.fst
          rcases List.mem_cons.mp hk2 with h3 | h3
          · subst h3
            exact List.mem_cons_self _ _
          · exact List.mem_cons_of_mem _ (ih fs rs hz k h3)
    · split at h
      · exact Except.noConfusion h
      · next r hr =>
        split at h
        · exact Except.noConfusion h
        · next rs hz =>
          injection h with h2
          subst h2
          show k ∈ key :: rest.map Prod.fst
          cases hri : r.isUndef
          case false =>
            rw [hri, if_neg Bool.false_ne_true] at hk
            have hk2 : k ∈ key :: rs.map Prod.fst := hk
            rcases List.mem_cons.mp hk2 with h3 | h3
            · subst h3
              exact List.mem_cons_self _ _
            · exact List.mem_cons_of_mem _ (ih fs rs hz k h3)
          case true =>
            rw [hri, if_pos rfl] at hk
            exact List.mem_cons_of_mem _ (ih fs rs hz k hk)

/-- When a schema ends in a `limit` field declared as
`z.number().default(10)`, no earlier field is named `limit`, and the input
omits `limit`, a successful object parse binds `limit` to `10`. -/
theorem zparseObjWith_limit_default (p : ZSchema → JsVal → Except String JsVal)
    (hp : p (.zdefault .znumber (.num 10)) JsVal.undef = .ok (.num 10)) :
    ∀ (fields : List (String × ZSchema)) (fs out : List (String × JsVal)),
    "limit" ∉ fields.map Prod.fst →
    lookupKey fs "limit" = none →
    zparseObjWith p (fields ++ [("limit", .zdefault .znumber (.num 10))]) fs = .ok out →
    lookupKey out "limit" = some (.num 10) := by
  intro fields
  induction fields with
  | nil =>
    intro fs out _ hfs h
    rw [List.nil_append, zparseObjWith] at h
    simp only [hfs, hp, zparseObjWith, JsVal.isUndef] at h
    injection h with h2
    subst h2
    rfl
  | cons q rest ih =>
    obtain ⟨key, sch⟩ := q
    intro fs out hnot hfs h
    have hnot2 : "limit" ∉ key :: rest.map Prod.fst := hnot
    have hkey : (key == "limit") = false :=
      beq_eq_false_iff_ne.mpr (fun e => hnot2 (List.mem_cons.mpr (Or.inl (e.symm))))
    have hrest : "limit" ∉ rest.map Prod.fst :=
      fun m => hnot2 (List.mem_cons.mpr (Or.inr m))
    rw [List.cons_append, zparseObjWith] at h
    split at h
    · split at h
      · exact Except.noConfusion h
      · split at h
        · exact Except.noConfusion h
        · next rs hz =>
          injection h with h2
          subst h2
          rw [lookupKey, hkey, if_neg (by simp)]
          exact ih fs rs hrest hfs hz
    · split at h
      · exact Except.noConfusion h
      · next r hr =>
        split at h
        · exact Except.noConfusion h
        · next rs hz =>
          injection h with h2
          subst h2
          cases hri : r.isUndef
          case true =>
            rw [if_pos rfl]
            exact ih fs rs hrest hfs hz
          case false =>
            rw [if_neg Bool.false_ne_true]
            rw [lookupKey, hkey, if_neg (by simp)]
            exact ih fs rs hrest hfs hz

/-- On the structured front end, a successful `get-products` parse with
`limit` omitted binds `limit` to `10`. -/
theorem zparse_getProducts_limit (fs : List (String × JsVal)) (out : JsVal)
    (hfs : lookupKey fs "limit" = none)
    (h : zparse getProductsSchema (.obj fs) = .ok out) :
    optGet out "limit" = .num 10 := by
  obtain ⟨fs2, l, he, hz, rfl⟩ := zparse_zobject_ok_shape _ _ _ h
  injection he with he2
  subst he2
  have hl := zparseObjWith_limit_default (zparseF 19) rfl
      [("searchTitle", .zoptional .zstring)] fs l (by decide) hfs hz
  simp [optGet, hl]

/-- On the structured front end, a successful `get-customers` parse with
`limit` omitted binds `limit` to `10`. -/
theorem zparse_getCustomers_limit (fs : List (String × JsVal)) (out : JsVal)
    (hfs : lookupKey fs "limit" = none)
    (h : zparse getCustomersSchema (.obj fs) = .ok out) :
    optGet out "limit" = .num 10 := by
  obtain ⟨fs2, l, he, hz, rfl⟩ := zparse_zobject_ok_shape _ _ _ h
  injection he with he2
  subst he2
  have hl := zparseObjWith_limit_default (zparseF 19) rfl
      [("searchQuery", .zoptional .zstring)] fs l (by decide) hfs hz
  simp [optGet, hl]

/-- On the structured front end, a successful `get-orders` parse with
`limit` omitted binds `limit` to `10`. -/
theorem zparse_getOrders_limit (fs : List (String × JsVal)) (out : JsVal)
    (hfs : lookupKey fs "limit" = none)
    (h : zparse getOrdersSchema (.obj fs) = .ok out) :
    optGet out "limit" = .num 10 := by
  obtain ⟨fs2, l, he, hz, rfl⟩ := zparse_zobject_ok_shape _ _ _ h
  injection he with he2
  subst he2
  have hl := zparseObjWith_limit_default (zparseF 19) rfl
      [("status", .zdefault (.zenum ["any", "open", "closed", "cancelled"]) (.str "any"))]
      fs l (by decide) hfs hz
  simp [optGet, hl]

/-- On the structured front end, a successful `get-customer-orders` parse
with `limit` omitted binds `limit` to `10`. -/
theorem zparse_getCustomerOrders_limit (fs : List (String × JsVal)) (out : JsVal)
    (hfs : lookupKey fs "limit" = none)
    (h : zparse getCustomerOrdersSchema (.obj fs) = .ok out) :
    optGet out "limit" = .num 10 := by
  obtain ⟨fs2, l, he, hz, rfl⟩ := zparse_zobject_ok_shape _ _ _ h
  injection he with he2
  subst he2
  have hl := zparseObjWith_limit_default (zparseF 19) rfl
      [("customerId", .znumericStr "Customer ID must be numeric")] fs l (by decide) hfs hz
  simp [optGet, hl]

/-- Claim C1.  The claim states that default-filling on the two front ends is
behaviorally identical, and in particular that `create-product` with `status`
omitted resolves to `"DRAFT"` on both.  The code violates this: the HTTP
front end's `create-product` handler passes the raw argument object to the
executor unchanged (with the echo executor, the executor demonstrably
receives an object with no `status` field), while the structured-protocol
schema fills `status` with `"DRAFT"`.  The two front ends also disagree on
the required-field set (`title` is required only by the schema). -/
theorem create_product_status_default_drift :
    mcpPost echoExec (callBody (.str "create-product")
        (.obj [("title", .str "Test Product")])) =
      (⟨200, wrapContent (.obj [("title", .str "Test Product")])⟩,
       some ("create-product", .obj [("title", .str "Test Product")])) ∧
    zparse createProductSchema (.obj [("title", .str "Test Product")]) =
      .ok (.obj [("title", .str "Test Product"), ("status", .str "DRAFT")]) :=
  ⟨rfl, rfl⟩

/-- Claim C2.  If a registered tool's handler fails with a thrown error
during a `tools/call` dispatch on the HTTP front end, the response is a 500
envelope carrying the error's message (or the fallback when the message is
falsy) and its stack as details, and the handler invocation is recorded;
moreover every dispatch, for every executor environment and request body,
produces one of the modelled response envelopes (status 200, 400, 404 or
500) — no exception escapes the HTTP boundary. -/
theorem tools_call_executor_error_yields_500_envelope :
    (∀ (exec : ExecEnv) (name : String)
       (handler : ExecEnv → JsVal → Except JsError JsVal) (args : JsVal) (e : JsError),
       lookupKey toolHandlers name = some handler →
       handler exec (coerceToolArgs args) = .error e →
       mcpPost exec (callBody (.str name) args) =
         (⟨500, .obj [("error", .str (if e.message == "" then "Tool execution failed" else e.message)),
                      ("details", .str e.stack)]⟩,
          some (name, coerceToolArgs args))) ∧
    (∀ (exec : ExecEnv) (reqBody : JsVal),
       (mcpPost exec reqBody).1.status = 200 ∨ (mcpPost exec reqBody).1.status = 400 ∨
       (mcpPost exec reqBody).1.status = 404 ∨ (mcpPost exec reqBody).1.status = 500) := by
  constructor
  · intro exec name handler args e hlk herr
    have hne := registered_name_nonempty hlk
    have hb : (name != "") = true := bne_true_of_ne hne
    have hlh : lookupHandler name = some (.registered handler) := by
      simp [lookupHandler, hlk]
    simp [mcpPost, callBody, optGet, lookupKey, strictEqStr, JsVal.truthy, jsToString_str,
          hb, hlh, herr]
  · intro exec reqBody
    cases reqBody <;> simp only [mcpPost] <;> (repeat' split) <;> simp

/-- Witness for claim C2: the `get-products` handler under an executor that
throws `boom` produces the 500 envelope with message and stack. -/
theorem tools_call_executor_error_yields_500_envelope_witness :
    lookupKey toolHandlers "get-products" = some handleGetProducts ∧
    handleGetProducts (failExec ⟨"boom", "trace"⟩) (coerceToolArgs .null) =
      .error ⟨"boom", "trace"⟩ ∧
    mcpPost (failExec ⟨"boom", "trace"⟩) (callBody (.str "get-products") .null) =
      (⟨500, .obj [("error", .str "boom"), ("details", .str "trace")]⟩,
       some ("get-products", coerceToolArgs .null)) :=
  ⟨rfl, rfl,
   tools_call_executor_error_yields_500_envelope.1
     (failExec ⟨"boom", "trace"⟩) "get-products" handleGetProducts .null
     ⟨"boom", "trace"⟩ rfl rfl⟩

/-- Counterexample to claim C3 as stated: on the generic HTTP front end, a
`get-customer-orders` call with `customerId = "abc"` (and an `update-customer`
call with `id = "abc"`) is not rejected before the executor runs — the
handler invocation is recorded and, with an executor stub that succeeds, the
response is 200. -/
theorem customer_id_abc_not_rejected_on_http_front_end :
    mcpPost okNullExec (callBody (.str "get-customer-orders")
        (.obj [("customerId", .str "abc")])) =
      (⟨200, wrapContent .null⟩,
       some ("get-customer-orders", .obj [("customerId", .str "abc")])) ∧
    mcpPost okNullExec (callBody (.str "update-customer")
        (.obj [("id", .str "abc")])) =
      (⟨200, wrapContent .null⟩,
       some ("update-customer", .obj [("id", .str "abc")])) :=
  ⟨rfl, rfl⟩

/-- Claim C3 as amended: the numeric-string validation exists only on the
structured-protocol front end, whose declared schemas for
`get-customer-orders` and `update-customer` reject a `customerId`/`id` of
`"abc"` with the validation error `Customer ID must be numeric` and accept
`"12345"`; the HTTP front end's `get-customer-orders` handler forwards
`"abc"` to the executor (only filling the `limit` default). -/
theorem numeric_id_validation_structured_front_end_only :
    zparse getCustomerOrdersSchema (.obj [("customerId", .str "abc")]) =
      .error "Customer ID must be numeric" ∧
    zparse getCustomerOrdersSchema (.obj [("customerId", .str "12345")]) =
      .ok (.obj [("customerId", .str "12345"), ("limit", .num 10)]) ∧
    zparse updateCustomerSchema (.obj [("id", .str "abc")]) =
      .error "Customer ID must be numeric" ∧
    zparse updateCustomerSchema (.obj [("id", .str "12345")]) =
      .ok (.obj [("id", .str "12345")]) ∧
    getCustomerOrdersProcessedArgs (.obj [("customerId", .str "abc")]) =
      .obj [("customerId", .str "abc"), ("limit", .num 10)] :=
  ⟨rfl, rfl, rfl, rfl, rfl⟩

/-- Claim C4.  For the four tools whose schema declares `limit`
(`get-products`, `get-customers`, `get-orders`, `get-customer-orders`),
omitting `limit` resolves it to `10` before the executor is called, on both
front ends: the HTTP handlers' processed argument objects bind `limit` to
`10`, and every successful structured-protocol parse binds `limit` to
`10`. -/
theorem omitted_limit_defaults_to_ten :
    (∀ args : JsVal, optGet args "limit" = JsVal.undef →
       optGet (getProductsProcessedArgs args) "limit" = .num 10 ∧
       optGet (getCustomersProcessedArgs args) "limit" = .num 10 ∧
       optGet (getOrdersProcessedArgs args) "limit" = .num 10 ∧
       optGet (getCustomerOrdersProcessedArgs args) "limit" = .num 10) ∧
    (∀ (fs : List (String × JsVal)) (out : JsVal), lookupKey fs "limit" = none →
       (zparse getProductsSchema (.obj fs) = .ok out → optGet out "limit" = .num 10) ∧
       (zparse getCustomersSchema (.obj fs) = .ok out → optGet out "limit" = .num 10) ∧
       (zparse getOrdersSchema (.obj fs) = .ok out → optGet out "limit" = .num 10) ∧
       (zparse getCustomerOrdersSchema (.obj fs) = .ok out → optGet out "limit" = .num 10)) := by
  constructor
  · intro args h
    refine ⟨?_, ?_, ?_, ?_⟩
    · unfold getProductsProcessedArgs
      rw [h]
      rfl
    · unfold getCustomersProcessedArgs
      rw [h]
      rfl
    · unfold getOrdersProcessedArgs
      rw [h]
      rfl
    · unfold getCustomerOrdersProcessedArgs
      rw [h]
      rfl
  · intro fs out hfs
    exact ⟨zparse_getProducts_limit fs out hfs, zparse_getCustomers_limit fs out hfs,
           zparse_getOrders_limit fs out hfs, zparse_getCustomerOrders_limit fs out hfs⟩

/-- Witness for claim C4: concrete argument objects with `limit` omitted, on
both front ends. -/
theorem omitted_limit_defaults_to_ten_witness :
    optGet (getProductsProcessedArgs (.obj [])) "limit" = .num 10 ∧
    optGet (getCustomersProcessedArgs (.obj [])) "limit" = .num 10 ∧
    optGet (getOrdersProcessedArgs (.obj [])) "limit" = .num 10 ∧
    optGet (getCustomerOrdersProcessedArgs (.obj [])) "limit" = .num 10 ∧
    optGet (JsVal.obj [("limit", .num 10)]) "limit" = .num 10 ∧
    optGet (JsVal.obj [("customerId", .str "12345"), ("limit", .num 10)]) "limit" = .num 10 := by
  have h1 := omitted_limit_defaults_to_ten.1 (.obj []) rfl
  have h2 := omitted_limit_defaults_to_ten.2 [] (.obj [("limit", .num 10)]) rfl
  have h3 := omitted_limit_defaults_to_ten.2 [("customerId", .str "12345")]
      (.obj [("customerId", .str "12345"), ("limit", .num 10)]) rfl
  exact ⟨h1.1, h1.2.1, h1.2.2.1, h1.2.2.2, h2.1 rfl, h3.2.2.2 rfl⟩

/-- Counterexample to claim C5 as stated: the HTTP front end's
`create-product` handler forwards the undeclared field `bogus` to the
executor — with the echo executor the 200 response reproduces the full
argument object, `bogus` included, as the executor's input. -/
theorem undeclared_field_forwarded_by_http_create_product :
    mcpPost echoExec (callBody (.str "create-product")
        (.obj [("title", .str "Widget"), ("bogus", .str "X")])) =
      (⟨200, wrapContent (.obj [("title", .str "Widget"), ("bogus", .str "X")])⟩,
       some ("create-product", .obj [("title", .str "Widget"), ("bogus", .str "X")])) :=
  rfl

/-- Claim C5 as amended: fields not declared in the schema are ignored
wherever validation happens — on the structured-protocol front end for every
tool (a successful parse only outputs declared keys), and on the HTTP front
end for the four tools whose handlers rebuild the argument object
(`get-products`, `get-customers`, `get-orders`, `get-customer-orders`, whose
processed argument objects carry exactly the declared keys); the remaining
HTTP handlers are pass-through and forward undeclared fields. -/
theorem undeclared_fields_ignored_where_validated :
    (∀ (name : String) (sch : ZSchema), (name, sch) ∈ mcpToolSchemas →
       ∀ (v out : JsVal), zparse sch v = .ok out →
       ∀ k, k ∈ objKeys out → k ∈ schemaTopKeys sch) ∧
    (∀ args : JsVal,
       objKeys (getProductsProcessedArgs args) = ["searchTitle", "limit"] ∧
       objKeys (getCustomersProcessedArgs args) = ["searchQuery", "limit"] ∧
       objKeys (getOrdersProcessedArgs args) = ["status", "limit"] ∧
       objKeys (getCustomerOrdersProcessedArgs args) = ["customerId", "limit"]) := by
  constructor
  · intro name sch hmem v out h k hk
    simp [mcpToolSchemas] at hmem
    rcases hmem with hc | hc | hc | hc | hc | hc | hc | hc | hc <;>
      (obtain ⟨rfl, rfl⟩ := hc
       obtain ⟨fs, l, rfl, hz, rfl⟩ := zparse_zobject_ok_shape _ _ _ h
       exact zparseObjWith_keys_subset _ _ _ _ hz k hk)
  · intro args
    exact ⟨rfl, rfl, rfl, rfl⟩

/-- Witness for claim C5 (amended): a `create-product` parse with the
undeclared field `junk` outputs only declared keys, and a rebuilt HTTP
argument object carries exactly the declared keys. -/
theorem undeclared_fields_ignored_where_validated_witness :
    ("title" ∈ schemaTopKeys createProductSchema) ∧
    objKeys (getProductsProcessedArgs (.obj [("junk", .str "J")])) = ["searchTitle", "limit"] := by
  refine ⟨?_, (undeclared_fields_ignored_where_validated.2 (.obj [("junk", .str "J")])).1⟩
  exact undeclared_fields_ignored_where_validated.1 "create-product" createProductSchema
    (by simp [mcpToolSchemas]) (.obj [("title", .str "W"), ("junk", .str "J")])
    (.obj [("title", .str "W"), ("status", .str "DRAFT")]) rfl "title" (by simp [objKeys])

/-- Claim C6.  A `tools/call` request whose `params` object has no `name`
key is answered 400 with exactly `Tool name is required`, whatever else
(including any `arguments` value) the `params` object carries, and no tool
handler is invoked. -/
theorem missing_tool_name_yields_400 :
    ∀ (exec : ExecEnv) (pfields : List (String × JsVal)),
    lookupKey pfields "name" = none →
    mcpPost exec (.obj [("method", .str "tools/call"), ("params", .obj pfields)]) =
      (⟨400, .obj [("error", .str "Tool name is required")]⟩, none) := by
  intro exec pfields h
  simp [mcpPost, optGet, lookupKey, strictEqStr, JsVal.truthy, h]

/-- Witness for claim C6: `params` carrying only an `arguments` value. -/
theorem missing_tool_name_yields_400_witness :
    lookupKey [("arguments", JsVal.null)] "name" = none ∧
    mcpPost okNullExec (.obj [("method", .str "tools/call"),
        ("params", .obj [("arguments", JsVal.null)])]) =
      (⟨400, .obj [("error", .str "Tool name is required")]⟩, none) :=
  ⟨rfl, missing_tool_name_yields_400 okNullExec [("arguments", JsVal.null)] rfl⟩

/-- Claim C7.  The claim states that every non-empty `params.name` absent
from the tool registry is answered 404 with the name in the message, with no
executor invoked.  The code violates this: the guard
`if (!toolHandlers[name])` consults the prototype chain of the plain
registry object, so the name `"toString"` — non-empty and never registered —
resolves to the truthy inherited `Object.prototype.toString`, skips the 404
branch, and the inherited builtin is invoked in the executor's place: the
response is 200 with body `"[object Object]"`, not 404 (the spec's table
demands `Tool '<name>' not found` for every unknown name, so the unguarded
prototype lookup is the slip).  For a name on neither the registry nor
`Object.prototype`, such as `"get-widgets"`, the intended 404 envelope is
produced. -/
theorem proto_key_toString_bypasses_404 :
    lookupKey toolHandlers "toString" = none ∧
    mcpPost okNullExec (callBody (.str "toString") (.obj [])) =
      (⟨200, .str "[object Object]"⟩, none) ∧
    (mcpPost okNullExec (callBody (.str "toString") (.obj []))).1.status ≠ 404 ∧
    mcpPost okNullExec (callBody (.str "get-widgets") (.obj [])) =
      (⟨404, .obj [("error", .str "Tool \x27get-widgets\x27 not found")]⟩, none) := by
  refine ⟨rfl, rfl, ?_, rfl⟩
  intro hcontra
  have h2 : (200 : Nat) = 404 := hcontra
  exact absurd h2 (by decide)

/-- Claim C8.  For every executor environment and every tool name, a
`tools/call` request with `arguments: null` produces exactly the same
response (status, body and recorded handler invocation) as the same request
with `arguments: ` the empty object: both coerce to the empty object before
dispatch. -/
theorem null_arguments_equivalent_to_empty_object :
    ∀ (exec : ExecEnv) (name : String),
    mcpPost exec (callBody (.str name) .null) =
      mcpPost exec (callBody (.str name) (.obj [])) :=
  fun _ _ => rfl

/-- Claim C9.  A `tools/call` request whose `params.name` is the empty
string is answered 400 with `Tool name is required` (the falsy-name check
fires), not 404, whatever the `arguments` value, and no tool handler is
invoked. -/
theorem empty_string_tool_name_yields_400 :
    ∀ (exec : ExecEnv) (args : JsVal),
    mcpPost exec (callBody (.str "") args) =
      (⟨400, .obj [("error", .str "Tool name is required")]⟩, none) ∧
    (mcpPost exec (callBody (.str "") args)).1.status ≠ 404 := by
  intro exec args
  refine ⟨rfl, ?_⟩
  intro hcontra
  have h2 : (400 : Nat) = 404 := hcontra
  exact absurd h2 (by decide)

/-- Claim C10.  An array `arguments` value passes the
`args && typeof args === "object"` coercion unchanged (arrays are truthy and
of object type), so for a registered tool the handler receives the array
itself, not the empty object. -/
theorem array_arguments_forwarded_as_is :
    ∀ (exec : ExecEnv) (name : String)
      (handler : ExecEnv → JsVal → Except JsError JsVal) (xs : List JsVal),
    lookupKey toolHandlers name = some handler →
    coerceToolArgs (.arr xs) = .arr xs ∧
    (mcpPost exec (callBody (.str name) (.arr xs))).2 = some (name, .arr xs) := by
  intro exec name handler xs hlk
  have hne := registered_name_nonempty hlk
  have hb : (name != "") = true := bne_true_of_ne hne
  have hlh : lookupHandler name = some (.registered handler) := by
    simp [lookupHandler, hlk]
  refine ⟨rfl, ?_⟩
  cases hres : handler exec (.arr xs) with
  | ok r =>
    simp [mcpPost, callBody, optGet, lookupKey, strictEqStr, JsVal.truthy, jsToString_str,
          coerceToolArgs, JsVal.typeofObject, hb, hlh, hres]
  | error e =>
    simp [mcpPost, callBody, optGet, lookupKey, strictEqStr, JsVal.truthy, jsToString_str,
          coerceToolArgs, JsVal.typeofObject, hb, hlh, hres]

/-- Witness for claim C10: the empty array forwarded to `get-products`. -/
theorem array_arguments_forwarded_as_is_witness :
    coerceToolArgs (.arr []) = .arr [] ∧
    (mcpPost okNullExec (callBody (.str "get-products") (.arr []))).2 =
      some ("get-products", .arr []) :=
  array_arguments_forwarded_as_is okNullExec "get-products" handleGetProducts [] rfl
